import Mathlib

/-!
Verification development for the extradata parameter extractor of the
node-av bindings (src/bindings/codec_parameters.cc).

The embedding models `CodecParameters::ParseExtradata` and the four
codec-specific header parsers (`parse_vp8_keyframe`, `parse_vp9_frame`,
`parse_av1_sequence_header`, and the Annex-B NAL location logic for
H.264/HEVC) as pure Lean functions over a state record `CodecPar` that
mirrors the fields of `AVCodecParameters` touched by the code.

Bytes are modelled as `Nat` values read through `byteAt`, which applies
the `% 256` reduction of a `uint8`.  The FFmpeg `GetBitContext`
(MSB-first big-endian bit reader) is modelled by `getBit` and
`readBits`; reads past the end of the buffer yield 0, matching the
zeroed `AV_INPUT_BUFFER_PADDING_SIZE` tail that `SetExtradata`
allocates with `av_mallocz`.

The H.264 and HEVC SPS payload decoders call FFmpeg library internals
(`ff_h264_decode_seq_parameter_set`, `ff_hevc_decode_nal_sps`) that are
not part of this repository; they are modelled as universally
quantified oracle functions of type `SpsOracle`, so every theorem about
the aggregator holds for arbitrary behaviour of those decoders.  All
logic that lives in codec_parameters.cc itself (guards, NAL scan, OBU
scan, VP8/VP9/AV1 bit layouts, merge policy) is translated directly.
-/

/-- AVMediaType value for video streams. -/
def AVMEDIA_TYPE_VIDEO : Int := 0

/-- AVMediaType value for audio streams. -/
def AVMEDIA_TYPE_AUDIO : Int := 1

/-- AVCodecID value for H.264. -/
def AV_CODEC_ID_H264 : Int := 27

/-- AVCodecID value for VP8. -/
def AV_CODEC_ID_VP8 : Int := 139

/-- AVCodecID value for VP9. -/
def AV_CODEC_ID_VP9 : Int := 167

/-- AVCodecID value for HEVC. -/
def AV_CODEC_ID_HEVC : Int := 173

/-- AVCodecID value for AV1. -/
def AV_CODEC_ID_AV1 : Int := 226

/-- AVPixelFormat value for planar YUV 4:2:0 8-bit. -/
def AV_PIX_FMT_YUV420P : Int := 0

/-- AVColorRange value for limited (MPEG) range. -/
def AVCOL_RANGE_MPEG : Int := 1

/-- AVColorRange value for full (JPEG) range. -/
def AVCOL_RANGE_JPEG : Int := 2

/-- AVERROR(EAGAIN) on Linux: the retry outcome. -/
def AVERROR_EAGAIN : Int := -11

/-- AVERROR(EINVAL). -/
def AVERROR_EINVAL : Int := -22

/-- AVERROR(ENOSYS): the code uses this both for unsupported container
shapes and for unsupported features and codecs. -/
def AVERROR_ENOSYS : Int := -38

/-- AVERROR_INVALIDDATA = FFERRTAG of I N D A. -/
def AVERROR_INVALIDDATA : Int := -1094995529

/-- AVRational as used by the code (num and den are C ints). -/
structure AVRational where
  num : Int
  den : Int
deriving DecidableEq

/-- The scratch record filled by the per-codec parsers, mirroring
`struct ParsedParams` and its member initializers in
codec_parameters.cc. -/
structure ParsedParams where
  width : Int
  height : Int
  pix_fmt : Int
  profile : Int
  level : Int
  sar : AVRational
  framerate : AVRational
  color_primaries : Int
  color_trc : Int
  color_space : Int
  color_range : Int
  chroma_location : Int
  bit_rate : Int
deriving DecidableEq

/-- The zero-initialised `ParsedParams parsed = {}` value built at the
start of `ParseExtradata` (member initializers of the C struct). -/
def initParsedParams : ParsedParams :=
  { width := 0
    height := 0
    pix_fmt := -1
    profile := -1
    level := -1
    sar := ⟨0, 1⟩
    framerate := ⟨0, 1⟩
    color_primaries := -1
    color_trc := -1
    color_space := -1
    color_range := -1
    chroma_location := -1
    bit_rate := 0 }

/-- The slice of `AVCodecParameters` state that `ParseExtradata` reads
and writes.  `extradata` is the byte buffer (one `Nat` per byte);
`extradata = []` models a missing or zero-sized extradata buffer. -/
structure CodecPar where
  codec_type : Int
  codec_id : Int
  width : Int
  height : Int
  format : Int
  profile : Int
  level : Int
  sar : AVRational
  framerate : AVRational
  color_primaries : Int
  color_trc : Int
  color_space : Int
  color_range : Int
  chroma_location : Int
  bit_rate : Int
  sample_rate : Int
  extradata : List Nat
deriving DecidableEq

/-- Byte access `data[i]` with the uint8 reduction; indices past the
end read the zeroed padding that SetExtradata allocates. -/
def byteAt (l : List Nat) (i : Nat) : Nat := l.getD i 0 % 256

/-- Bit `i` of the buffer in MSB-first order, as read by the FFmpeg
GetBitContext: bit 0 is the most significant bit of byte 0. -/
def getBit (l : List Nat) (i : Nat) : Nat :=
  byteAt l (i / 8) / 2 ^ (7 - i % 8) % 2

/-- Value of `get_bits(gb, n)` for a cursor positioned at bit `pos`: the value of
the `n` bits starting at `pos`, MSB first. -/
def readBits (l : List Nat) (pos : Nat) : Nat → Nat
  | 0 => 0
  | n + 1 => readBits l pos n * 2 + getBit l (pos + n)

/-- Function `parse_vp8_keyframe` (codec_parameters.cc lines 388-414): checks
the keyframe bit and the 3-byte sync pattern, then reads the two 14-bit
little-endian dimension fields.  Over uint8 values the C expression
`(data[6] | (data[7] << 8)) & 0x3FFF` equals
`(byteAt data 6 + byteAt data 7 * 256) % 16384`. -/
def parse_vp8_keyframe (data : List Nat) (params : ParsedParams) :
    ParsedParams × Int :=
  if data.length < 10 then (params, -1)
  else if byteAt data 0 % 2 ≠ 0 then (params, AVERROR_EAGAIN)
  else if byteAt data 3 ≠ 0x9d ∨ byteAt data 4 ≠ 0x01 ∨ byteAt data 5 ≠ 0x2a then
    (params, AVERROR_INVALIDDATA)
  else
    let w : Int := ((byteAt data 6 + byteAt data 7 * 256) % 16384 + 1 : Nat)
    let h : Int := ((byteAt data 8 + byteAt data 9 * 256) % 16384 + 1 : Nat)
    let params := { params with
      width := w
      height := h
      pix_fmt := AV_PIX_FMT_YUV420P }
    if 0 < params.width ∧ 0 < params.height then (params, 0) else (params, -1)

/-- Function `parse_vp9_frame` (codec_parameters.cc lines 418-482).  Every
`get_bits` call consumes a fixed number of bits, so the sequential
cursor positions are written out explicitly: frame marker at bits 0-1,
profile 2-3, show-existing-frame 4, frame-type 5, show-frame 6,
error-resilient 7, sync code 8-31, color space 32-34, color range 35,
refresh flags 36-43, width 44-59, height 60-75. -/
def parse_vp9_frame (data : List Nat) (params : ParsedParams) :
    ParsedParams × Int :=
  if data.length < 10 then (params, -1)
  else if readBits data 0 2 ≠ 2 then (params, AVERROR_INVALIDDATA)
  else
    let params := { params with profile := (readBits data 2 2 : Nat) }
    if getBit data 4 = 1 then (params, AVERROR_EAGAIN)
    else if getBit data 5 ≠ 0 then (params, AVERROR_EAGAIN)
    else if readBits data 8 24 ≠ 0x498342 then (params, AVERROR_INVALIDDATA)
    else
      let cs := readBits data 32 3
      let params := { params with color_space := (cs : Nat) }
      if cs = 7 then (params, AVERROR_ENOSYS)
      else
        let params := { params with
          color_range := if getBit data 35 = 1 then AVCOL_RANGE_JPEG
                         else AVCOL_RANGE_MPEG }
        let w : Int := (readBits data 44 16 + 1 : Nat)
        let h : Int := (readBits data 60 16 + 1 : Nat)
        let params := { params with
          width := w
          height := h
          pix_fmt := AV_PIX_FMT_YUV420P }
        if 0 < params.width ∧ 0 < params.height then (params, 0)
        else (params, -1)



/-- Operating-point loop of `parse_av1_sequence_header` (lines
522-530): each iteration consumes 12 + 5 bits, reads a 5-bit value,
and consumes one further bit when that value exceeds 7.  Only the
final cursor position is observable. -/
def opLoop (data : List Nat) (pos : Nat) : Nat → Nat
  | 0 => pos
  | n + 1 =>
    opLoop data
      (if 7 < readBits data (pos + 17) 5 then pos + 23 else pos + 22) n

/-- The branch of `parse_av1_sequence_header` between the
reduced-still-picture flag and the frame-size fields (lines 502-531).
`none` models the two early `return AVERROR(ENOSYS)` exits (timing
info present, or decoder model info present); `some pos` is the cursor
position at which the frame_width_bits field starts.  `pos` on entry is
the bit position right after the reduced-still-picture flag (bit 5). -/
def av1AfterFlags (data : List Nat) (pos : Nat) (reduced : Nat) : Option Nat :=
  if reduced ≠ 0 then some pos
  else if getBit data pos = 1 then none
  else if getBit data (pos + 1) = 1 then none
  else
    let cnt := readBits data (pos + 3) 5
    some (opLoop data (pos + 8) (cnt + 1))

/-- Function `parse_av1_sequence_header` (codec_parameters.cc lines 486-598).
Bit positions: seq_profile 0-2, still_picture 3,
reduced_still_picture_header 4; then `av1AfterFlags` covers the
non-reduced prelude; then the 4-bit width/height bit-count selectors
and the width/height fields at the selected widths.  The reads after
the frame-size fields (superblock and tool-enable flags) have no
observable effect on the result and are omitted; the function then
unconditionally sets the 4:2:0 8-bit pixel format and applies the
final dimension check. -/
def parse_av1_sequence_header (data : List Nat) (params : ParsedParams) :
    ParsedParams × Int :=
  if data.length < 10 then (params, -1)
  else
    let params := { params with profile := (readBits data 0 3 : Nat) }
    let reduced := getBit data 4
    match av1AfterFlags data 5 reduced with
    | none => (params, AVERROR_ENOSYS)
    | some pos =>
      let wbits := readBits data pos 4 + 1
      let hbits := readBits data (pos + 4) 4 + 1
      let w : Int := (readBits data (pos + 8) wbits + 1 : Nat)
      let h : Int := (readBits data (pos + 8 + wbits) hbits + 1 : Nat)
      let params := { params with
        width := w
        height := h
        pix_fmt := AV_PIX_FMT_YUV420P }
      if 0 < params.width ∧ 0 < params.height then (params, 0)
      else (params, -1)

/-- The Annex-B shape test of `ParseExtradata` (lines 626-628): at
least 4 bytes beginning with the start code 00 00 00 01. -/
def isAnnexB (e : List Nat) : Prop :=
  4 ≤ e.length ∧ byteAt e 0 = 0 ∧ byteAt e 1 = 0 ∧ byteAt e 2 = 0 ∧
    byteAt e 3 = 1

instance (e : List Nat) : Decidable (isAnnexB e) := by
  unfold isAnnexB; infer_instance

/-- Whether a 4-byte start code begins at offset `i`. -/
def startCodeAt (e : List Nat) (i : Nat) : Bool :=
  byteAt e i == 0 && byteAt e (i + 1) == 0 && byteAt e (i + 2) == 0 &&
    byteAt e (i + 3) == 1

/-- The NAL-size scan of `ParseExtradata` (lines 640-646): the first
`i` with `4 ≤ i < extradata_size - 3` at which another start code
begins. -/
def startCodeSearch (e : List Nat) : Option Nat :=
  (List.range' 4 (e.length - 7)).find? (startCodeAt e)

/-- The NAL size computed by lines 636-649: distance from offset 4 to
the next start code, with the fallback `extradata_size - 4` when the
scan finds nothing (or finds a start code immediately at offset 4,
which leaves `nal_size` at its initial 0). -/
def nalSize (e : List Nat) : Nat :=
  match startCodeSearch e with
  | some i => if i - 4 = 0 then e.length - 4 else i - 4
  | none => e.length - 4

/-- Shape of the H.264/HEVC SPS payload decoders (`parse_h264_sps`,
`parse_hevc_sps`).  Those functions hand the payload to FFmpeg library
internals that are not part of this repository, so the aggregator is
parameterised over them: given the NAL bytes and the scratch record,
they return the updated record and a status. -/
abbrev SpsOracle := List Nat → ParsedParams → ParsedParams × Int

/-- A trivial oracle used to instantiate the aggregator on concrete
inputs whose codec path never reaches the H.264/HEVC SPS decoders. -/
def stubSps : SpsOracle := fun _ pp => (pp, -1)

/-- The AV1 configuration-record OBU scan of `ParseExtradata` (lines
679-714).  Starting at byte offset 4, while `offset < size - 2`: read
the OBU header byte; if it has a size field and `offset + 1 < size`,
either parse a type-1 (sequence header) OBU payload and stop, or skip
`2 + size_byte` bytes; otherwise stop.  `none` means the scan ran out
of buffer without finding a sequence-header OBU.  `fuel` bounds the
recursion; the offset grows by at least 2 per step, so any fuel of at
least `e.length` is enough. -/
def av1Scan (e : List Nat) : Nat → Nat → Option (ParsedParams × Int)
  | 0, _ => none
  | fuel + 1, offset =>
    if offset + 2 < e.length then
      let obu := byteAt e offset
      let ty := obu / 8 % 16
      let hasSize := obu / 2 % 2
      if hasSize = 1 ∧ offset + 1 < e.length then
        if ty = 1 then
          some (parse_av1_sequence_header (e.drop (offset + 2)) initParsedParams)
        else av1Scan e fuel (offset + 2 + byteAt e (offset + 1))
      else none
    else none

/-- The AV1 dispatch of `ParseExtradata` (lines 672-732): a buffer of
more than 4 bytes whose first byte has the top bit set is treated as an
AV1CodecConfigurationRecord and scanned for a sequence-header OBU
(`av1Scan`, with the initial `ret = AVERROR(ENOSYS)` surviving a
fruitless scan); otherwise a buffer of more than 1 byte is tried as a
raw OBU. -/
def parseAv1Extradata (e : List Nat) : ParsedParams × Int :=
  if 4 < e.length ∧ 128 ≤ byteAt e 0 then
    match av1Scan e (e.length + 1) 4 with
    | some r => r
    | none => (initParsedParams, AVERROR_ENOSYS)
  else if 1 < e.length then
    if byteAt e 0 / 8 % 16 = 1 then
      parse_av1_sequence_header
        (e.drop (if byteAt e 0 / 2 % 2 = 1 ∧ 2 < e.length then 2 else 1))
        initParsedParams
    else (initParsedParams, AVERROR_ENOSYS)
  else (initParsedParams, AVERROR_ENOSYS)

/-- The codec dispatch of `ParseExtradata` (lines 620-733), producing
the scratch record and the status `ret` as they stand when control
reaches the merge step.  For H.264/HEVC: the Annex-B requirement
(`AVERROR(ENOSYS)` otherwise), the NAL location (`AVERROR(EINVAL)` on a
degenerate NAL), the NAL-type check (type 7 resp. 33, with `ret`
left at `AVERROR(ENOSYS)` otherwise), and the SPS decoder call.  VP8,
VP9 and AV1 run their parsers on the raw extradata.  Any other codec
leaves the initial `ret = AVERROR(ENOSYS)`. -/
def dispatchParse (h264 hevc : SpsOracle) (p : CodecPar) :
    ParsedParams × Int :=
  if p.codec_id = AV_CODEC_ID_H264 ∨ p.codec_id = AV_CODEC_ID_HEVC then
    if ¬ isAnnexB p.extradata then (initParsedParams, AVERROR_ENOSYS)
    else if nalSize p.extradata = 0 then (initParsedParams, AVERROR_EINVAL)
    else if p.codec_id = AV_CODEC_ID_H264 then
      if byteAt p.extradata 4 % 32 = 7 then
        h264 ((p.extradata.drop 4).take (nalSize p.extradata)) initParsedParams
      else (initParsedParams, AVERROR_ENOSYS)
    else
      if byteAt p.extradata 4 / 2 % 64 = 33 then
        hevc ((p.extradata.drop 4).take (nalSize p.extradata)) initParsedParams
      else (initParsedParams, AVERROR_ENOSYS)
  else if p.codec_id = AV_CODEC_ID_VP8 then
    parse_vp8_keyframe p.extradata initParsedParams
  else if p.codec_id = AV_CODEC_ID_VP9 then
    parse_vp9_frame p.extradata initParsedParams
  else if p.codec_id = AV_CODEC_ID_AV1 then
    parseAv1Extradata p.extradata
  else (initParsedParams, AVERROR_ENOSYS)

/-- The merge step of `ParseExtradata` (lines 735-786): dimensions are
written unconditionally, every other field is written exactly when the
parser populated it (sentinel `-1` for enumerations, nonzero num and
den for rationals, positive value for the bit rate). -/
def mergeParsed (p : CodecPar) (q : ParsedParams) : CodecPar :=
  { p with
    width := q.width
    height := q.height
    format := if q.pix_fmt ≠ -1 then q.pix_fmt else p.format
    profile := if q.profile ≠ -1 then q.profile else p.profile
    level := if q.level ≠ -1 then q.level else p.level
    sar := if q.sar.num ≠ 0 ∧ q.sar.den ≠ 0 then q.sar else p.sar
    framerate := if q.framerate.num ≠ 0 ∧ q.framerate.den ≠ 0 then
                   q.framerate else p.framerate
    color_primaries := if q.color_primaries ≠ -1 then q.color_primaries
                       else p.color_primaries
    color_trc := if q.color_trc ≠ -1 then q.color_trc else p.color_trc
    color_space := if q.color_space ≠ -1 then q.color_space else p.color_space
    color_range := if q.color_range ≠ -1 then q.color_range else p.color_range
    chroma_location := if q.chroma_location ≠ -1 then q.chroma_location
                       else p.chroma_location
    bit_rate := if 0 < q.bit_rate then q.bit_rate else p.bit_rate }

/-- The tail of `ParseExtradata` (lines 735-791): when the dispatch
result `pr` reports success and positive dimensions, merge it and
return 0; otherwise leave the parameter set untouched and return
`ret` when negative, else `AVERROR(ENOSYS)`. -/
def mergeOrKeep (p : CodecPar) (pr : ParsedParams × Int) : CodecPar × Int :=
  if pr.2 = 0 ∧ 0 < pr.1.width ∧ 0 < pr.1.height then
    (mergeParsed p pr.1, 0)
  else (p, if pr.2 < 0 then pr.2 else AVERROR_ENOSYS)

/-- Method `CodecParameters::ParseExtradata` (codec_parameters.cc lines
600-792) on an allocated parameter set: the missing-extradata no-op,
the already-have-parameters short-circuits for video and audio, the
codec dispatch, and the guarded merge.  Returns the updated state and
the status code handed back to JavaScript. -/
def parseExtradataCore (h264 hevc : SpsOracle) (p : CodecPar) :
    CodecPar × Int :=
  if p.extradata = [] then (p, 0)
  else if p.codec_type = AVMEDIA_TYPE_VIDEO ∧ 0 < p.width then (p, 0)
  else if p.codec_type = AVMEDIA_TYPE_AUDIO ∧ 0 < p.sample_rate then (p, 0)
  else mergeOrKeep p (dispatchParse h264 hevc p)

/-- A parameter set as it comes from `alloc` (unspecified colors are 2
as in `avcodec_parameters_alloc`), before a caller fills any field. -/
def baseSt : CodecPar :=
  { codec_type := 0
    codec_id := 0
    width := 0
    height := 0
    format := -1
    profile := -1
    level := -1
    sar := ⟨0, 1⟩
    framerate := ⟨0, 1⟩
    color_primaries := 2
    color_trc := 2
    color_space := 2
    color_range := 0
    chroma_location := 0
    bit_rate := 0
    sample_rate := 0
    extradata := [] }

/-- A valid VP8 keyframe header encoding 1280 by 720: keyframe bit 0,
sync bytes 9d 01 2a, 14-bit little-endian fields 1279 and 719. -/
def vp8GeomBytes : List Nat := [0, 0, 0, 0x9d, 1, 0x2a, 0xFF, 4, 0xCF, 2]

/-- A VP8 video stream state with unknown dimensions. -/
def vp8GoodSt : CodecPar :=
  { baseSt with codec_id := AV_CODEC_ID_VP8, extradata := vp8GeomBytes }

/-- A VP8 state whose caller pre-filled profile, level, aspect ratio,
frame rate, colour metadata and bit rate before asking for a parse. -/
def vp8PrefilledSt : CodecPar :=
  { baseSt with
    codec_id := AV_CODEC_ID_VP8
    profile := 77
    level := 42
    sar := ⟨16, 11⟩
    framerate := ⟨25, 1⟩
    color_primaries := 1
    color_trc := 1
    color_space := 1
    color_range := 2
    chroma_location := 1
    bit_rate := 5000
    extradata := vp8GeomBytes }

/-- A valid VP9 keyframe header encoding 1280 by 720: marker 10,
profile 0, keyframe, sync 49 83 42, colour space 0, limited range. -/
def vp9KeyframeBytes : List Nat :=
  [0x82, 0x49, 0x83, 0x42, 0, 0, 0x4F, 0xF0, 0x2C, 0xF0]

/-- A VP9 video stream state whose caller already set the full (JPEG)
colour range before asking for a parse. -/
def vp9PrefilledSt : CodecPar :=
  { baseSt with
    codec_id := AV_CODEC_ID_VP9
    color_range := 2
    extradata := vp9KeyframeBytes }

/-- A state with an unsupported codec and a nonempty buffer. -/
def otherCodecSt : CodecPar :=
  { baseSt with codec_id := 2, extradata := [1, 2, 3, 4] }

/-- A video state that already knows its dimensions, paired with a
deliberately corrupt buffer. -/
def knownDimsSt : CodecPar :=
  { baseSt with
    codec_id := AV_CODEC_ID_H264
    width := 1920
    height := 1080
    extradata := [0xde, 0xad, 0xbe, 0xef] }

/-- An H.264 state whose extradata is an avcC-style configuration
record (leading byte 1), not an Annex-B stream. -/
def avccSt : CodecPar :=
  { baseSt with
    codec_id := AV_CODEC_ID_H264
    extradata := [1, 0x64, 0, 13, 0xFF] }

/-- A VP8 state with a 3-byte extradata buffer. -/
def shortBufSt : CodecPar :=
  { baseSt with codec_id := AV_CODEC_ID_VP8, extradata := [1, 2, 3] }

/-- An H.264 video state with a missing (empty) extradata buffer. -/
def emptyBufSt : CodecPar :=
  { baseSt with codec_id := AV_CODEC_ID_H264, extradata := [] }

/-- A VP8 inter-frame header: frame-type bit (bit 0 of byte 0) set. -/
def vp8InterSt : CodecPar :=
  { baseSt with
    codec_id := AV_CODEC_ID_VP8
    extradata := [1, 0, 0, 0x9d, 1, 0x2a, 0, 0, 0, 0] }

/-- A VP9 header with a valid frame marker whose show-existing-frame
bit is set: bits 10 00 1 ... in the first byte. -/
def vp9ShowExistingSt : CodecPar :=
  { baseSt with
    codec_id := AV_CODEC_ID_VP9
    extradata := [0x88, 0, 0, 0, 0, 0, 0, 0, 0, 0] }

/-- A VP9 header with a valid frame marker marking an inter frame:
bits 10 00 0 1 ... in the first byte. -/
def vp9InterSt : CodecPar :=
  { baseSt with
    codec_id := AV_CODEC_ID_VP9
    extradata := [0x84, 0, 0, 0, 0, 0, 0, 0, 0, 0] }

/-- Synthetic AV1 reduced-still-picture sequence-header payload with
11-bit frame-size fields (both 4-bit selectors hold 10): profile 000,
still_picture 0, reduced_still_picture_header 1, selectors 1010 1010,
then the 11-bit width and height fields, zero-padded to the 10-byte
minimum the parser requires. -/
def c9enc (w h : Nat) : List Nat :=
  [0x0D, 0x50 + w / 256, w % 256, h / 8, h % 8 * 32, 0, 0, 0, 0, 0]

/-- The closest realisable form of the spec test with 8-bit frame-size
fields (both selectors hold 7): profile 000, still 0, reduced 1,
selectors 0111 0111, width and height fields at their 8-bit maximum
255. -/
def c9SelectorSevenBytes : List Nat :=
  [0x0B, 0xBF, 0xFF, 0xF8, 0, 0, 0, 0, 0, 0]

/-- An AV1 configuration record (leading byte 0x81) holding a single
OBU of type 2 (temporal delimiter) and no sequence-header OBU. -/
def av1NoSeqSt : CodecPar :=
  { baseSt with
    codec_id := AV_CODEC_ID_AV1
    extradata := [0x81, 0, 0, 0, 0x12, 1, 0, 0] }

/-- An AV1 configuration record holding a sequence-header OBU whose
payload is a non-reduced header with the timing-info flag set, the
feature `parse_av1_sequence_header` declines as unsupported. -/
def av1TimingSt : CodecPar :=
  { baseSt with
    codec_id := AV_CODEC_ID_AV1
    extradata := [0x81, 0, 0, 0, 0x0A, 10, 0x04, 0, 0, 0, 0, 0, 0, 0, 0, 0] }











theorem byteAt_lt (l : List Nat) (i : Nat) : byteAt l i < 256 :=
  Nat.mod_lt _ (by norm_num)

theorem mergeOrKeep_success (p : CodecPar) (pr : ParsedParams × Int)
    (h : (mergeOrKeep p pr).2 = 0) :
    0 < (mergeOrKeep p pr).1.width ∧ 0 < (mergeOrKeep p pr).1.height := by
  unfold mergeOrKeep at *
  split_ifs at h ⊢ with hc hlt
  · exact ⟨by simp [mergeParsed, hc.2.1], by simp [mergeParsed, hc.2.2]⟩
  · simp only [Prod.snd] at h
    omega
  · norm_num [AVERROR_ENOSYS] at h

theorem mergeOrKeep_fst_of_ne (p : CodecPar) (pr : ParsedParams × Int)
    (h : (mergeOrKeep p pr).2 ≠ 0) : (mergeOrKeep p pr).1 = p := by
  unfold mergeOrKeep at *
  split_ifs at h ⊢ <;> simp_all

theorem mergeOrKeep_of_err (p : CodecPar) (pr : ParsedParams × Int)
    (h : pr.2 < 0) : mergeOrKeep p pr = (p, pr.2) := by
  unfold mergeOrKeep
  rw [if_neg, if_pos h]
  rintro ⟨h0, _⟩
  omega

theorem parseCore_parse_path (h264 hevc : SpsOracle) (p : CodecPar)
    (hne : p.extradata ≠ [])
    (hv : ¬ (p.codec_type = AVMEDIA_TYPE_VIDEO ∧ 0 < p.width))
    (ha : ¬ (p.codec_type = AVMEDIA_TYPE_AUDIO ∧ 0 < p.sample_rate)) :
    parseExtradataCore h264 hevc p =
      mergeOrKeep p (dispatchParse h264 hevc p) := by
  unfold parseExtradataCore
  rw [if_neg hne, if_neg hv, if_neg ha]

/-- Claim C1: for every codec, extradata buffer and existing parameter
set, whenever `parseExtradata` actually performs a parse (the buffer is
nonempty and neither short-circuit applies) and reports success
(return value 0 after merging), the resulting parameter set has
positive width and positive height; no successful parse produces a
record with one dimension set and the other unset.  Quantifying over
the SPS oracles covers every possible behaviour of the H.264/HEVC
payload decoders. -/
theorem c1_dimension_pairing (h264 hevc : SpsOracle) (p : CodecPar)
    (hne : p.extradata ≠ [])
    (hv : ¬ (p.codec_type = AVMEDIA_TYPE_VIDEO ∧ 0 < p.width))
    (ha : ¬ (p.codec_type = AVMEDIA_TYPE_AUDIO ∧ 0 < p.sample_rate))
    (h0 : (parseExtradataCore h264 hevc p).2 = 0) :
    0 < (parseExtradataCore h264 hevc p).1.width ∧
    0 < (parseExtradataCore h264 hevc p).1.height := by
  rw [parseCore_parse_path h264 hevc p hne hv ha] at h0 ⊢
  exact mergeOrKeep_success p _ h0

/-- Witness for C1: the VP8 keyframe state parses successfully and
ends with width 1280 and height 720, both positive. -/
theorem c1_dimension_pairing_witness :
    0 < (parseExtradataCore stubSps stubSps vp8GoodSt).1.width ∧
    0 < (parseExtradataCore stubSps stubSps vp8GoodSt).1.height :=
  c1_dimension_pairing stubSps stubSps vp8GoodSt (by decide) (by decide)
    (by decide) (by decide)

/-- Claim C2: atomicity on error.  For every codec, extradata buffer
and existing parameter set, if `parseExtradata` returns a nonzero
code then every field of the parameter set (the whole `CodecPar`
record: width, height, format, profile, level, sample aspect ratio,
frame rate, colour primaries, transfer, matrix, colour range, chroma
location, bit rate, and the rest) is exactly as it was before the
call. -/
theorem c2_error_atomicity (h264 hevc : SpsOracle) (p : CodecPar)
    (hr : (parseExtradataCore h264 hevc p).2 ≠ 0) :
    (parseExtradataCore h264 hevc p).1 = p := by
  unfold parseExtradataCore at *
  split_ifs at hr ⊢ with h1 h2 h3
  · simp at hr
  · simp at hr
  · simp at hr
  · exact mergeOrKeep_fst_of_ne p _ hr

/-- Witness for C2: a state with an unsupported codec id returns
AVERROR(ENOSYS), a nonzero code, and is left untouched. -/
theorem c2_error_atomicity_witness :
    (parseExtradataCore stubSps stubSps otherCodecSt).1 = otherCodecSt :=
  c2_error_atomicity stubSps stubSps otherCodecSt (by decide)

/-- Claim C3: short-circuit.  For every extradata buffer content
(arbitrarily corrupt bytes included), if the parameter set is video
with positive width, or audio with positive sample rate, then
`parseExtradata` returns success (0) without parsing the buffer and
without modifying any field: the result is exactly the input state. -/
theorem c3_short_circuit (h264 hevc : SpsOracle) (p : CodecPar)
    (hsc : (p.codec_type = AVMEDIA_TYPE_VIDEO ∧ 0 < p.width) ∨
           (p.codec_type = AVMEDIA_TYPE_AUDIO ∧ 0 < p.sample_rate)) :
    parseExtradataCore h264 hevc p = (p, 0) := by
  unfold parseExtradataCore
  split_ifs with h1 h2 h3
  · rfl
  · rfl
  · rfl
  · exfalso
    rcases hsc with h | h
    · exact h2 h
    · exact h3 h

/-- Witness for C3: a video state that already knows 1920x1080 returns
success untouched even though its buffer holds garbage bytes. -/
theorem c3_short_circuit_witness :
    parseExtradataCore stubSps stubSps knownDimsSt = (knownDimsSt, 0) :=
  c3_short_circuit stubSps stubSps knownDimsSt (by decide)

theorem parse_vp8_keyframe_short (data : List Nat) (params : ParsedParams)
    (h : data.length < 10) : parse_vp8_keyframe data params = (params, -1) := by
  unfold parse_vp8_keyframe
  rw [if_pos h]

theorem parse_vp9_frame_short (data : List Nat) (params : ParsedParams)
    (h : data.length < 10) : parse_vp9_frame data params = (params, -1) := by
  unfold parse_vp9_frame
  rw [if_pos h]

theorem parse_av1_sequence_header_short (data : List Nat)
    (params : ParsedParams) (h : data.length < 10) :
    parse_av1_sequence_header data params = (params, -1) := by
  unfold parse_av1_sequence_header
  rw [if_pos h]

theorem parseAv1Extradata_small (e : List Nat) (h : e.length < 4) :
    (parseAv1Extradata e).2 < 0 := by
  unfold parseAv1Extradata
  have h1 : ¬ (4 < e.length ∧ 128 ≤ byteAt e 0) := by
    rintro ⟨h4, _⟩
    omega
  rw [if_neg h1]
  split_ifs with h2 h3 h4
  · rw [parse_av1_sequence_header_short]
    · norm_num
    · rw [List.length_drop]
      omega
  · rw [parse_av1_sequence_header_short]
    · norm_num
    · rw [List.length_drop]
      omega
  · norm_num [AVERROR_ENOSYS]
  · norm_num [AVERROR_ENOSYS]

theorem dispatchParse_short (h264 hevc : SpsOracle) (p : CodecPar)
    (hlen : p.extradata.length < 4) : (dispatchParse h264 hevc p).2 < 0 := by
  have hnab : ¬ isAnnexB p.extradata := fun hA => absurd hA.1 (by omega)
  by_cases h1 : p.codec_id = AV_CODEC_ID_H264 ∨ p.codec_id = AV_CODEC_ID_HEVC
  · unfold dispatchParse
    rw [if_pos h1, if_pos hnab]
    norm_num [AVERROR_ENOSYS]
  · by_cases h2 : p.codec_id = AV_CODEC_ID_VP8
    · unfold dispatchParse
      rw [if_neg h1, if_pos h2, parse_vp8_keyframe_short _ _ (by omega)]
      norm_num
    · by_cases h3 : p.codec_id = AV_CODEC_ID_VP9
      · unfold dispatchParse
        rw [if_neg h1, if_neg h2, if_pos h3, parse_vp9_frame_short _ _ (by omega)]
        norm_num
      · by_cases h4 : p.codec_id = AV_CODEC_ID_AV1
        · unfold dispatchParse
          rw [if_neg h1, if_neg h2, if_neg h3, if_pos h4]
          exact parseAv1Extradata_small _ hlen
        · unfold dispatchParse
          rw [if_neg h1, if_neg h2, if_neg h3, if_neg h4]
          norm_num [AVERROR_ENOSYS]

/-- Claim C5: Annex-B requirement for H.264/HEVC.  When the codec is
H.264 or HEVC, the parse path is reached (nonempty buffer, neither
short-circuit applies), and the buffer does not begin with the 4-byte
start code 00 00 00 01 (for example a box-based avcC/hvcC record),
`parseExtradata` returns AVERROR(ENOSYS) — the code value with which
the implementation signals the unsupported container shape — and no
field is merged: the state is returned unchanged, and the bytes are
never interpreted as some other container shape. -/
theorem c5_annexb_required (h264 hevc : SpsOracle) (p : CodecPar)
    (hc : p.codec_id = AV_CODEC_ID_H264 ∨ p.codec_id = AV_CODEC_ID_HEVC)
    (hne : p.extradata ≠ [])
    (hv : ¬ (p.codec_type = AVMEDIA_TYPE_VIDEO ∧ 0 < p.width))
    (ha : ¬ (p.codec_type = AVMEDIA_TYPE_AUDIO ∧ 0 < p.sample_rate))
    (hnab : ¬ isAnnexB p.extradata) :
    parseExtradataCore h264 hevc p = (p, AVERROR_ENOSYS) := by
  rw [parseCore_parse_path h264 hevc p hne hv ha]
  have hd : dispatchParse h264 hevc p = (initParsedParams, AVERROR_ENOSYS) := by
    unfold dispatchParse
    rw [if_pos hc, if_pos hnab]
  rw [hd, mergeOrKeep_of_err]
  norm_num [AVERROR_ENOSYS]

/-- Witness for C5: an H.264 state whose extradata starts with the
avcC version byte 1 fails with AVERROR(ENOSYS) and is left unchanged. -/
theorem c5_annexb_required_witness :
    parseExtradataCore stubSps stubSps avccSt = (avccSt, AVERROR_ENOSYS) :=
  c5_annexb_required stubSps stubSps avccSt (Or.inl (by decide)) (by decide)
    (by decide) (by decide) (by decide)

/-- Claim C6, counterexample: the claim says `parseExtradata` never
reports success on a buffer shorter than 4 bytes, including an empty
buffer; but an empty (missing) extradata buffer takes the
nothing-to-parse path and returns success 0. -/
theorem c6_counterexample :
    parseExtradataCore stubSps stubSps emptyBufSt = (emptyBufSt, 0) ∧
    emptyBufSt.extradata.length < 4 := by
  decide

/-- Claim C6 as amended: an empty extradata buffer is a no-op success,
and there is no single up-front 4-byte guard; but a nonempty buffer
shorter than 4 bytes never reaches a successful parse: when the parse
path is reached (neither short-circuit applies), every codec path
rejects it with a negative code, and the parameter set is left
unchanged. -/
theorem c6_min_size (h264 hevc : SpsOracle) (p : CodecPar)
    (hne : p.extradata ≠ [])
    (hlen : p.extradata.length < 4)
    (hv : ¬ (p.codec_type = AVMEDIA_TYPE_VIDEO ∧ 0 < p.width))
    (ha : ¬ (p.codec_type = AVMEDIA_TYPE_AUDIO ∧ 0 < p.sample_rate)) :
    (parseExtradataCore h264 hevc p).2 ≠ 0 ∧
    (parseExtradataCore h264 hevc p).1 = p := by
  rw [parseCore_parse_path h264 hevc p hne hv ha]
  have hd := dispatchParse_short h264 hevc p hlen
  rw [mergeOrKeep_of_err p _ hd]
  exact ⟨by simp only [Prod.snd]; omega, rfl⟩

/-- Witness for C6: a VP8 state with a 3-byte buffer fails (nonzero
return) and is left unchanged. -/
theorem c6_min_size_witness :
    (parseExtradataCore stubSps stubSps shortBufSt).2 ≠ 0 ∧
    (parseExtradataCore stubSps stubSps shortBufSt).1 = shortBufSt :=
  c6_min_size stubSps stubSps shortBufSt (by decide) (by decide) (by decide)
    (by decide)

/-- Claim C4, counterexample: the claim says a caller-supplied field is
never overwritten by a parsed value, but a VP9 state whose caller set
the full (JPEG) colour range before the call parses successfully and
comes back with the parsed limited (MPEG) range instead: the
caller-supplied value is overwritten. -/
theorem c4_counterexample :
    (parseExtradataCore stubSps stubSps vp9PrefilledSt).2 = 0 ∧
    vp9PrefilledSt.color_range = AVCOL_RANGE_JPEG ∧
    (parseExtradataCore stubSps stubSps vp9PrefilledSt).1.color_range =
      AVCOL_RANGE_MPEG := by
  decide

/-- Claim C4 as amended: when `parseExtradata` proceeds to parse and
succeeds, the merge is additive only with respect to fields the parser
did not populate — those keep their caller-supplied values — while
every field the parser did populate (dimensions unconditionally, the
rest under the populated-sentinel tests) is written into the parameter
set even if the caller had already set it.  The first conjunct
characterises the whole merge; the remaining conjuncts spell out the
preservation of each unpopulated field. -/
theorem c4_additive_merge (h264 hevc : SpsOracle) (p : CodecPar)
    (hne : p.extradata ≠ [])
    (hv : ¬ (p.codec_type = AVMEDIA_TYPE_VIDEO ∧ 0 < p.width))
    (ha : ¬ (p.codec_type = AVMEDIA_TYPE_AUDIO ∧ 0 < p.sample_rate))
    (h0 : (dispatchParse h264 hevc p).2 = 0)
    (hw : 0 < (dispatchParse h264 hevc p).1.width)
    (hh : 0 < (dispatchParse h264 hevc p).1.height) :
    parseExtradataCore h264 hevc p =
      (mergeParsed p (dispatchParse h264 hevc p).1, 0) ∧
    ((dispatchParse h264 hevc p).1.profile = -1 →
      (parseExtradataCore h264 hevc p).1.profile = p.profile) ∧
    ((dispatchParse h264 hevc p).1.level = -1 →
      (parseExtradataCore h264 hevc p).1.level = p.level) ∧
    ((dispatchParse h264 hevc p).1.pix_fmt = -1 →
      (parseExtradataCore h264 hevc p).1.format = p.format) ∧
    ((dispatchParse h264 hevc p).1.sar.num = 0 →
      (parseExtradataCore h264 hevc p).1.sar = p.sar) ∧
    ((dispatchParse h264 hevc p).1.framerate.num = 0 →
      (parseExtradataCore h264 hevc p).1.framerate = p.framerate) ∧
    ((dispatchParse h264 hevc p).1.color_primaries = -1 →
      (parseExtradataCore h264 hevc p).1.color_primaries = p.color_primaries) ∧
    ((dispatchParse h264 hevc p).1.color_trc = -1 →
      (parseExtradataCore h264 hevc p).1.color_trc = p.color_trc) ∧
    ((dispatchParse h264 hevc p).1.color_space = -1 →
      (parseExtradataCore h264 hevc p).1.color_space = p.color_space) ∧
    ((dispatchParse h264 hevc p).1.color_range = -1 →
      (parseExtradataCore h264 hevc p).1.color_range = p.color_range) ∧
    ((dispatchParse h264 hevc p).1.chroma_location = -1 →
      (parseExtradataCore h264 hevc p).1.chroma_location =
        p.chroma_location) ∧
    ((dispatchParse h264 hevc p).1.bit_rate ≤ 0 →
      (parseExtradataCore h264 hevc p).1.bit_rate = p.bit_rate) := by
  have hcore : parseExtradataCore h264 hevc p =
      (mergeParsed p (dispatchParse h264 hevc p).1, 0) := by
    rw [parseCore_parse_path h264 hevc p hne hv ha]
    unfold mergeOrKeep
    rw [if_pos ⟨h0, hw, hh⟩]
  refine ⟨hcore, ?_, ?_, ?_, ?_, ?_, ?_, ?_, ?_, ?_, ?_, ?_⟩
  · intro hs
    rw [hcore]
    simp [mergeParsed, hs]
  · intro hs
    rw [hcore]
    simp [mergeParsed, hs]
  · intro hs
    rw [hcore]
    simp [mergeParsed, hs]
  · intro hs
    rw [hcore]
    simp [mergeParsed, hs]
  · intro hs
    rw [hcore]
    simp [mergeParsed, hs]
  · intro hs
    rw [hcore]
    simp [mergeParsed, hs]
  · intro hs
    rw [hcore]
    simp [mergeParsed, hs]
  · intro hs
    rw [hcore]
    simp [mergeParsed, hs]
  · intro hs
    rw [hcore]
    simp [mergeParsed, hs]
  · intro hs
    rw [hcore]
    simp [mergeParsed, hs]
  · intro hs
    rw [hcore]
    simp only [mergeParsed]
    rw [if_neg (by omega)]

/-- Witness for the amended C4: a VP8 state with caller-supplied
profile, level, aspect ratio, frame rate, colour range and bit rate
parses successfully, and every one of those fields — none of which the
VP8 parser populates — keeps its caller-supplied value. -/
theorem c4_additive_merge_witness :
    (parseExtradataCore stubSps stubSps vp8PrefilledSt).1.profile =
      vp8PrefilledSt.profile ∧
    (parseExtradataCore stubSps stubSps vp8PrefilledSt).1.level =
      vp8PrefilledSt.level ∧
    (parseExtradataCore stubSps stubSps vp8PrefilledSt).1.sar =
      vp8PrefilledSt.sar ∧
    (parseExtradataCore stubSps stubSps vp8PrefilledSt).1.framerate =
      vp8PrefilledSt.framerate ∧
    (parseExtradataCore stubSps stubSps vp8PrefilledSt).1.color_range =
      vp8PrefilledSt.color_range ∧
    (parseExtradataCore stubSps stubSps vp8PrefilledSt).1.bit_rate =
      vp8PrefilledSt.bit_rate :=
  ⟨(c4_additive_merge stubSps stubSps vp8PrefilledSt (by decide) (by decide)
      (by decide) (by decide) (by decide) (by decide)).2.1 (by decide),
   (c4_additive_merge stubSps stubSps vp8PrefilledSt (by decide) (by decide)
      (by decide) (by decide) (by decide) (by decide)).2.2.1 (by decide),
   (c4_additive_merge stubSps stubSps vp8PrefilledSt (by decide) (by decide)
      (by decide) (by decide) (by decide) (by decide)).2.2.2.2.1 (by decide),
   (c4_additive_merge stubSps stubSps vp8PrefilledSt (by decide) (by decide)
      (by decide) (by decide) (by decide) (by decide)).2.2.2.2.2.1 (by decide),
   (c4_additive_merge stubSps stubSps vp8PrefilledSt (by decide) (by decide)
      (by decide) (by decide) (by decide) (by decide)).2.2.2.2.2.2.2.2.2.1
     (by decide),
   (c4_additive_merge stubSps stubSps vp8PrefilledSt (by decide) (by decide)
      (by decide) (by decide) (by decide) (by decide)).2.2.2.2.2.2.2.2.2.2.2
     (by decide)⟩

theorem readBits_marker (l : List Nat) : readBits l 0 2 = byteAt l 0 / 64 := by
  have h := byteAt_lt l 0
  show (0 * 2 + getBit l 0) * 2 + getBit l 1 = byteAt l 0 / 64
  unfold getBit
  norm_num
  omega

theorem getBit_four (l : List Nat) : getBit l 4 = byteAt l 0 / 8 % 2 := by
  unfold getBit
  norm_num

theorem getBit_five (l : List Nat) : getBit l 5 = byteAt l 0 / 4 % 2 := by
  unfold getBit
  norm_num

theorem parse_vp8_keyframe_eagain (data : List Nat) (params : ParsedParams)
    (hlen : 10 ≤ data.length) (hft : byteAt data 0 % 2 = 1) :
    parse_vp8_keyframe data params = (params, AVERROR_EAGAIN) := by
  unfold parse_vp8_keyframe
  rw [if_neg (by omega : ¬ data.length < 10), if_pos (by omega)]

theorem parse_vp9_frame_eagain (data : List Nat) (params : ParsedParams)
    (hlen : 10 ≤ data.length)
    (hm : byteAt data 0 / 64 = 2)
    (hse : byteAt data 0 / 8 % 2 = 1 ∨
           (byteAt data 0 / 8 % 2 = 0 ∧ byteAt data 0 / 4 % 2 = 1)) :
    (parse_vp9_frame data params).2 = AVERROR_EAGAIN := by
  unfold parse_vp9_frame
  rw [if_neg (by omega : ¬ data.length < 10)]
  rw [if_neg (by rw [readBits_marker, hm]; omega : ¬ readBits data 0 2 ≠ 2)]
  simp only []
  rcases hse with h | ⟨h0, h1⟩
  · rw [if_pos (by rw [getBit_four]; omega)]
  · rw [if_neg (by rw [getBit_four]; omega), if_pos (by rw [getBit_five]; omega)]

/-- Claim C8: for every VP8 buffer (of the 10-byte minimum the parser
accepts) whose frame-type bit marks an inter frame, and for every VP9
buffer with a valid 2-bit frame marker whose show-existing-frame bit is
set or whose frame-type bit marks an inter frame, `parseExtradata`
returns the retry outcome AVERROR(EAGAIN) — distinct from the
corrupt-data code AVERROR_INVALIDDATA and from the unsupported code
AVERROR(ENOSYS) — and leaves the parameter set untouched (no partial
record). -/
theorem c8_not_a_keyframe :
    (∀ (h264 hevc : SpsOracle) (p : CodecPar),
      p.codec_id = AV_CODEC_ID_VP8 →
      ¬ (p.codec_type = AVMEDIA_TYPE_VIDEO ∧ 0 < p.width) →
      ¬ (p.codec_type = AVMEDIA_TYPE_AUDIO ∧ 0 < p.sample_rate) →
      10 ≤ p.extradata.length →
      byteAt p.extradata 0 % 2 = 1 →
      parseExtradataCore h264 hevc p = (p, AVERROR_EAGAIN)) ∧
    (∀ (h264 hevc : SpsOracle) (p : CodecPar),
      p.codec_id = AV_CODEC_ID_VP9 →
      ¬ (p.codec_type = AVMEDIA_TYPE_VIDEO ∧ 0 < p.width) →
      ¬ (p.codec_type = AVMEDIA_TYPE_AUDIO ∧ 0 < p.sample_rate) →
      10 ≤ p.extradata.length →
      byteAt p.extradata 0 / 64 = 2 →
      (byteAt p.extradata 0 / 8 % 2 = 1 ∨
        (byteAt p.extradata 0 / 8 % 2 = 0 ∧
          byteAt p.extradata 0 / 4 % 2 = 1)) →
      parseExtradataCore h264 hevc p = (p, AVERROR_EAGAIN)) ∧
    AVERROR_EAGAIN ≠ AVERROR_INVALIDDATA ∧
    AVERROR_EAGAIN ≠ AVERROR_ENOSYS := by
  refine ⟨?_, ?_, by decide, by decide⟩
  · intro h264 hevc p hid hv ha hlen hft
    have hne : p.extradata ≠ [] := by
      intro h
      rw [h] at hlen
      simp at hlen
    rw [parseCore_parse_path h264 hevc p hne hv ha]
    have hd : dispatchParse h264 hevc p = (initParsedParams, AVERROR_EAGAIN) := by
      unfold dispatchParse
      rw [if_neg (by rw [hid]; decide), if_pos hid,
          parse_vp8_keyframe_eagain _ _ hlen hft]
    rw [hd, mergeOrKeep_of_err p _ (by norm_num [AVERROR_EAGAIN])]
  · intro h264 hevc p hid hv ha hlen hm hse
    have hne : p.extradata ≠ [] := by
      intro h
      rw [h] at hlen
      simp at hlen
    rw [parseCore_parse_path h264 hevc p hne hv ha]
    have hd2 : (dispatchParse h264 hevc p).2 = AVERROR_EAGAIN := by
      unfold dispatchParse
      rw [if_neg (by rw [hid]; decide), if_neg (by rw [hid]; decide),
          if_pos hid]
      exact parse_vp9_frame_eagain _ _ hlen hm hse
    rw [mergeOrKeep_of_err p _ (by rw [hd2]; norm_num [AVERROR_EAGAIN]), hd2]

/-- Witness for C8: a VP8 inter frame, a VP9 show-existing-frame
header and a VP9 inter frame each return AVERROR(EAGAIN) untouched. -/
theorem c8_not_a_keyframe_witness :
    parseExtradataCore stubSps stubSps vp8InterSt =
      (vp8InterSt, AVERROR_EAGAIN) ∧
    parseExtradataCore stubSps stubSps vp9ShowExistingSt =
      (vp9ShowExistingSt, AVERROR_EAGAIN) ∧
    parseExtradataCore stubSps stubSps vp9InterSt =
      (vp9InterSt, AVERROR_EAGAIN) :=
  ⟨c8_not_a_keyframe.1 stubSps stubSps vp8InterSt (by decide) (by decide)
      (by decide) (by decide) (by decide),
   c8_not_a_keyframe.2.1 stubSps stubSps vp9ShowExistingSt (by decide)
      (by decide) (by decide) (by decide) (by decide) (Or.inl (by decide)),
   c8_not_a_keyframe.2.1 stubSps stubSps vp9InterSt (by decide) (by decide)
      (by decide) (by decide) (by decide) (Or.inr (by decide))⟩

/-- Claim C7: VP8 keyframe geometry.  For every VP8 buffer of at least
10 bytes whose first-byte frame-type bit is 0 and whose bytes 3-5 hold
the sync pattern 9d 01 2a, `parse_vp8_keyframe` succeeds (status 0)
with pixel format YUV420P and each dimension equal to the masked
14-bit little-endian field value plus 1; in particular fields encoding
1279 and 719 yield width 1280 and height 720 (the witness). -/
theorem c7_vp8_keyframe_geometry (data : List Nat) (params : ParsedParams)
    (hlen : 10 ≤ data.length)
    (hft : byteAt data 0 % 2 = 0)
    (h3 : byteAt data 3 = 0x9d) (h4 : byteAt data 4 = 0x01)
    (h5 : byteAt data 5 = 0x2a) :
    parse_vp8_keyframe data params =
      ({ params with
         width := ((byteAt data 6 + byteAt data 7 * 256) % 16384 + 1 : Nat)
         height := ((byteAt data 8 + byteAt data 9 * 256) % 16384 + 1 : Nat)
         pix_fmt := AV_PIX_FMT_YUV420P }, 0) := by
  have hw : (0 : Int) <
      ((byteAt data 6 + byteAt data 7 * 256) % 16384 + 1 : Nat) := by
    omega
  have hh : (0 : Int) <
      ((byteAt data 8 + byteAt data 9 * 256) % 16384 + 1 : Nat) := by
    omega
  unfold parse_vp8_keyframe
  rw [if_neg (by omega : ¬ data.length < 10),
      if_neg (by omega : ¬ byteAt data 0 % 2 ≠ 0),
      if_neg (by simp [h3, h4, h5])]
  simp only []
  split_ifs with hpos
  · rfl
  · exact absurd ⟨hw, hh⟩ hpos

/-- Witness for C7: the synthetic header with fields 1279 and 719
yields width 1280, height 720 and YUV420P. -/
theorem c7_vp8_keyframe_geometry_witness :
    parse_vp8_keyframe vp8GeomBytes initParsedParams =
      ({ initParsedParams with
         width := 1280
         height := 720
         pix_fmt := AV_PIX_FMT_YUV420P }, 0) := by
  rw [c7_vp8_keyframe_geometry vp8GeomBytes initParsedParams (by decide)
      (by decide) (by decide) (by decide) (by decide)]
  decide

theorem readBits_succ (l : List Nat) (pos n : Nat) :
    readBits l pos (n + 1) = readBits l pos n * 2 + getBit l (pos + n) := rfl

theorem readBits_zero (l : List Nat) (pos : Nat) : readBits l pos 0 = 0 := rfl

theorem readBits_add (l : List Nat) (pos m : Nat) :
    ∀ n, readBits l pos (m + n) =
      readBits l pos m * 2 ^ n + readBits l (pos + m) n
  | 0 => by simp [readBits_zero]
  | n + 1 => by
    rw [show m + (n + 1) = (m + n) + 1 from rfl, readBits_succ,
        readBits_add l pos m n, readBits_succ, ← Nat.add_assoc, pow_succ]
    ring

theorem readBits_byte2 (l : List Nat) : readBits l 16 8 = byteAt l 2 := by
  have hb := byteAt_lt l 2
  simp only [readBits_succ, readBits_zero]
  unfold getBit
  norm_num
  omega

theorem readBits_byte3 (l : List Nat) : readBits l 24 8 = byteAt l 3 := by
  have hb := byteAt_lt l 3
  simp only [readBits_succ, readBits_zero]
  unfold getBit
  norm_num
  omega

theorem c9enc_byte0 (w h : Nat) : byteAt (c9enc w h) 0 = 13 := rfl

theorem c9enc_profile (w h : Nat) : readBits (c9enc w h) 0 3 = 0 := by
  simp only [readBits_succ, readBits_zero]
  unfold getBit
  norm_num [c9enc_byte0]

theorem c9enc_reduced (w h : Nat) : getBit (c9enc w h) 4 = 1 := by
  unfold getBit
  norm_num [c9enc_byte0]

theorem c9enc_selw (w h : Nat) (hw : w < 2048) :
    readBits (c9enc w h) 5 4 = 10 := by
  have e1 : byteAt (c9enc w h) 1 = 80 + w / 256 := by
    show (80 + w / 256) % 256 = 80 + w / 256
    exact Nat.mod_eq_of_lt (by omega)
  simp only [readBits_succ, readBits_zero]
  unfold getBit
  norm_num [c9enc_byte0, e1]
  omega

theorem c9enc_selh (w h : Nat) (hw : w < 2048) :
    readBits (c9enc w h) 9 4 = 10 := by
  have e1 : byteAt (c9enc w h) 1 = 80 + w / 256 := by
    show (80 + w / 256) % 256 = 80 + w / 256
    exact Nat.mod_eq_of_lt (by omega)
  simp only [readBits_succ, readBits_zero]
  unfold getBit
  norm_num [e1]
  omega

theorem c9enc_width (w h : Nat) (hw : w < 2048) :
    readBits (c9enc w h) 13 11 = w := by
  have e1 : byteAt (c9enc w h) 1 = 80 + w / 256 := by
    show (80 + w / 256) % 256 = 80 + w / 256
    exact Nat.mod_eq_of_lt (by omega)
  have e2 : byteAt (c9enc w h) 2 = w % 256 := by
    show w % 256 % 256 = w % 256
    omega
  have h3 : readBits (c9enc w h) 13 3 = w / 256 := by
    simp only [readBits_succ, readBits_zero]
    unfold getBit
    norm_num [e1]
    omega
  rw [show (11 : Nat) = 3 + 8 from rfl, readBits_add,
      show (13 : Nat) + 3 = 16 from rfl, readBits_byte2, e2, h3,
      show (2 : Nat) ^ 8 = 256 from rfl]
  omega

theorem c9enc_height (w h : Nat) (hh : h < 2048) :
    readBits (c9enc w h) 24 11 = h := by
  have e3 : byteAt (c9enc w h) 3 = h / 8 := by
    show h / 8 % 256 = h / 8
    exact Nat.mod_eq_of_lt (by omega)
  have e4 : byteAt (c9enc w h) 4 = h % 8 * 32 := by
    show h % 8 * 32 % 256 = h % 8 * 32
    exact Nat.mod_eq_of_lt (by omega)
  have h3 : readBits (c9enc w h) 32 3 = h % 8 := by
    simp only [readBits_succ, readBits_zero]
    unfold getBit
    norm_num [e4]
    omega
  rw [show (11 : Nat) = 8 + 3 from rfl, readBits_add,
      show (24 : Nat) + 8 = 32 from rfl, readBits_byte3, e3, h3,
      show (2 : Nat) ^ 3 = 8 from rfl]
  omega

theorem av1AfterFlags_reduced (data : List Nat) (pos : Nat) (r : Nat)
    (hr : r ≠ 0) : av1AfterFlags data pos r = some pos := by
  unfold av1AfterFlags
  rw [if_pos hr]

/-- Claim C9, counterexample: the spec test demands 4-bit selectors of
value 7 — 8-bit frame-size fields — holding the values 1919 and 1079,
which is unrealisable: an 8-bit field is at most 255.  At the concrete
selector-7 payload whose 8-bit fields are at their maximum 255, the
parser succeeds with width 256 and height 256, the largest dimensions
the claimed shape can produce — never 1920 by 1080. -/
theorem c9_counterexample :
    parse_av1_sequence_header c9SelectorSevenBytes initParsedParams =
      ({ initParsedParams with
         profile := 0
         width := 256
         height := 256
         pix_fmt := AV_PIX_FMT_YUV420P }, 0) ∧
    (256 : Int) < 1920 := by
  decide

/-- Claim C9 as amended: a reduced-still-picture sequence-header
payload whose 4-bit field-width selectors hold 10 (11-bit frame-size
fields, +1-biased) and whose width and height fields hold any values
below 2048 parses successfully with each dimension equal to the field
value plus 1; in particular fields 1919 and 1079 yield width 1920 and
height 1080 (the witness). -/
theorem c9_av1_reduced_still (w h : Nat) (hw : w < 2048) (hh : h < 2048) :
    parse_av1_sequence_header (c9enc w h) initParsedParams =
      ({ initParsedParams with
         profile := 0
         width := (w : Int) + 1
         height := (h : Int) + 1
         pix_fmt := AV_PIX_FMT_YUV420P }, 0) := by
  unfold parse_av1_sequence_header
  rw [if_neg (by norm_num [c9enc] : ¬ (c9enc w h).length < 10)]
  simp only []
  rw [c9enc_profile, c9enc_reduced,
      av1AfterFlags_reduced _ _ _ (by norm_num)]
  simp only []
  rw [c9enc_selw w h hw, c9enc_selh w h hw]
  norm_num
  rw [c9enc_width w h hw, c9enc_height w h hh]
  exact ⟨rfl, rfl⟩

/-- Witness for the amended C9: fields 1919 and 1079 at 11-bit width
parse to 1920 by 1080 with YUV420P. -/
theorem c9_av1_reduced_still_witness :
    1919 < 2048 ∧ 1079 < 2048 ∧
    parse_av1_sequence_header (c9enc 1919 1079) initParsedParams =
      ({ initParsedParams with
         profile := 0
         width := 1920
         height := 1080
         pix_fmt := AV_PIX_FMT_YUV420P }, 0) :=
  ⟨by norm_num, by norm_num, by
    rw [c9_av1_reduced_still 1919 1079 (by norm_num) (by norm_num)]
    decide⟩

/-- Claim C10, counterexample: the claim says the no-sequence-header
outcome is distinguishable by the caller from the unsupported-feature
outcome, but the code returns the same AVERROR(ENOSYS) for both: a
configuration record whose OBUs contain no sequence header
(av1NoSeqSt) and a configuration record whose sequence header uses the
unparsed timing-info feature (av1TimingSt) produce identical results. -/
theorem c10_counterexample :
    parseExtradataCore stubSps stubSps av1NoSeqSt =
      (av1NoSeqSt, AVERROR_ENOSYS) ∧
    parseExtradataCore stubSps stubSps av1TimingSt =
      (av1TimingSt, AVERROR_ENOSYS) := by
  decide

/-- Claim C10 as amended: for every AV1 extradata buffer in
configuration-record shape (more than 4 bytes, top bit of the first
byte set) whose OBU scan finds no sequence-header OBU, parseExtradata
returns AVERROR(ENOSYS) without merging any field; this is the same
code the implementation returns for unsupported features and
unsupported codecs, so the caller cannot distinguish the
no-sequence-header outcome from those. -/
theorem c10_no_seq_header (h264 hevc : SpsOracle) (p : CodecPar)
    (hid : p.codec_id = AV_CODEC_ID_AV1)
    (hv : ¬ (p.codec_type = AVMEDIA_TYPE_VIDEO ∧ 0 < p.width))
    (ha : ¬ (p.codec_type = AVMEDIA_TYPE_AUDIO ∧ 0 < p.sample_rate))
    (hcfg : 4 < p.extradata.length ∧ 128 ≤ byteAt p.extradata 0)
    (hscan : av1Scan p.extradata (p.extradata.length + 1) 4 = none) :
    parseExtradataCore h264 hevc p = (p, AVERROR_ENOSYS) := by
  have hne : p.extradata ≠ [] := by
    intro h
    rw [h] at hcfg
    simp at hcfg
  rw [parseCore_parse_path h264 hevc p hne hv ha]
  have hd : dispatchParse h264 hevc p = (initParsedParams, AVERROR_ENOSYS) := by
    unfold dispatchParse
    rw [if_neg (by rw [hid]; decide), if_neg (by rw [hid]; decide),
        if_neg (by rw [hid]; decide), if_pos hid]
    unfold parseAv1Extradata
    rw [if_pos hcfg, hscan]
  rw [hd, mergeOrKeep_of_err p _ (by norm_num [AVERROR_ENOSYS])]

/-- Witness for the amended C10: the sequence-header-free
configuration record returns AVERROR(ENOSYS) untouched. -/
theorem c10_no_seq_header_witness :
    parseExtradataCore stubSps stubSps av1NoSeqSt =
      (av1NoSeqSt, AVERROR_ENOSYS) :=
  c10_no_seq_header stubSps stubSps av1NoSeqSt (by decide) (by decide)
    (by decide) (by decide) (by decide)
